import Mathlib

/-!
Verification of the meshtastic-discord-bridge core against its design
specification.  The Python sources under `src/` are shallowly embedded as
executable Lean definitions; Python dictionaries are modelled as association
lists or option-valued structures and Python truthiness is made explicit
where the code relies on it.
-/

namespace MeshBridge

/-! ## Data model

A raw Meshtastic packet (`meshtastic_client.py`) is a dictionary.  The code
reads the keys `decoded` (with sub-keys `portnum`, `text`, `telemetry`),
`fromId`, `from`, `toId` and `rxTime`; each is optional, so each is an
`Option` field here.  Numeric payload values are modelled as `Int` (only
presence and verbatim copying matter to the code).
-/

/-- The `user` sub-dictionary of a node-cache entry: `longName` / `shortName`
as read by `_process_packet` (lines 118-122 of `meshtastic_client.py`). -/
structure MeshUser where
  longName : Option String
  shortName : Option String
deriving DecidableEq

/-- One entry of `interface.nodes`.  `extraKeys` counts dictionary keys other
than `user`; it exists only so that Python truthiness of the node dictionary
(`node = ... or ...` at line 116) is representable: a node dictionary is
truthy iff it has at least one key. -/
structure CacheNode where
  user : Option MeshUser
  extraKeys : Nat
deriving DecidableEq

/-- Keys of the `interface.nodes` dictionary: the code looks up both the
display-id string (`fromId`) and the numeric id (`from`), so the dictionary
is keyed by a sum of the two. -/
inductive NodeKey where
  | str (s : String)
  | num (n : Nat)
deriving DecidableEq, BEq

/-- The node cache `interface.nodes`, as an association list. -/
abbrev NodeCache := List (NodeKey × CacheNode)

/-- The `telemetry` sub-dictionary of a decoded payload.  `deviceMetrics` is
itself a dictionary, kept as an association list so that Python truthiness
(`if device_metrics:` at line 149) and `.get` lookups are both expressible. -/
structure TelemetrySection where
  deviceMetrics : Option (List (String × Int))
deriving DecidableEq

/-- The `decoded` sub-dictionary of a raw packet. -/
structure DecodedPayload where
  portnum : Option String
  text : Option String
  telemetry : Option TelemetrySection
deriving DecidableEq

/-- A raw packet as consumed by `_process_packet`. -/
structure RawPacket where
  decoded : Option DecodedPayload
  fromId : Option String
  fromNum : Option Nat
  toId : Option String
  rxTime : Option Int
deriving DecidableEq

/-- The dictionary returned by `_process_packet`: either the
`direct_message` shape (lines 134-142) or the `telemetry` shape
(lines 150-161).  The final field is the echoed `raw_packet`. -/
inductive ProcessedMessage where
  | directMessage (from_id : String) (from_num : Nat) (to_id : String)
      (text : String) (timestamp : Int) (raw : RawPacket)
  | telemetry (from_id : String) (from_num : Nat)
      (battery_level voltage channel_utilization air_util_tx uptime_seconds : Option Int)
      (timestamp : Int) (raw : RawPacket)
deriving DecidableEq

/-! ## Python truthiness helpers -/

/-- Truthiness of an optional string: `None` and `''` are falsy. -/
def pyStrTruthy : Option String → Bool
  | none => false
  | some s => !s.isEmpty

/-- Truthiness of a node dictionary: truthy iff it has at least one key. -/
def nodeTruthy (n : CacheNode) : Bool :=
  n.user.isSome || n.extraKeys != 0

/-- Keep an optional node only if it is present and truthy. -/
def truthyNode : Option CacheNode → Option CacheNode
  | some n => if nodeTruthy n then some n else none
  | none => none

/-- `a or b` on two optional node dictionaries, composed with the subsequent
`if node:` test of line 117: the result is the first present-and-truthy
operand, if any. -/
def pyOrNode (a b : Option CacheNode) : Option CacheNode :=
  match truthyNode a with
  | some n => some n
  | none => truthyNode b

/-! ## The packet classifier (`_process_packet`) -/

/-- Display-name resolution, lines 110-125 of `meshtastic_client.py`:
guarded by `if self.interface and from_num:`, the code looks up
`interface.nodes` first by the display-id string, then by the numeric id
(line 116), and when the found node has a `user` entry picks
`longName or shortName or from_id` (line 122, Python `or`, so empty strings
fall through).  Any failure leaves `from_name = from_id`. -/
def resolveFromName (iface : Option NodeCache) (from_id : String) (from_num : Nat) : String :=
  match iface with
  | none => from_id
  | some nodes =>
    if from_num == 0 then from_id
    else
      match pyOrNode (nodes.lookup (NodeKey.str from_id)) (nodes.lookup (NodeKey.num from_num)) with
      | none => from_id
      | some node =>
        match node.user with
        | none => from_id
        | some u =>
          if pyStrTruthy u.longName then u.longName.getD ""
          else if pyStrTruthy u.shortName then u.shortName.getD ""
          else from_id

/-- `_process_packet` (lines 86-183 of `meshtastic_client.py`).  `iface` is
`self.interface` together with its node cache (`none` models a `None`
interface) and `now` is the value `int(time.time())` would return, used only
as the default for a missing `rxTime` (line 128). -/
def process_packet (iface : Option NodeCache) (now : Int) (packet : RawPacket) :
    Option ProcessedMessage :=
  match packet.decoded with
  | none => none
  | some decoded =>
    let from_id := packet.fromId.getD "Unknown"
    let from_num := packet.fromNum.getD 0
    let to_id := packet.toId.getD "Unknown"
    let from_name := resolveFromName iface from_id from_num
    let rx_time := packet.rxTime.getD now
    if decoded.portnum == some "TEXT_MESSAGE_APP" then
      some (.directMessage from_name from_num to_id (decoded.text.getD "") rx_time packet)
    else if decoded.portnum == some "TELEMETRY_APP" then
      match decoded.telemetry.bind (·.deviceMetrics) with
      | some dm =>
        if dm.isEmpty then none
        else
          some (.telemetry from_name from_num (dm.lookup "batteryLevel") (dm.lookup "voltage")
            (dm.lookup "channelUtilization") (dm.lookup "airUtilTx") (dm.lookup "uptimeSeconds")
            rx_time packet)
      | none => none
    else none

/-! ## Outbound send path (`discord_client.py` `send` command composed with
`main.py` `_send_mesh_message` and `meshtastic_client.py` `send_text`) -/

/-- Result the Discord `send` command reports back to the invoking user. -/
inductive SendOutcome where
  | tooLong (n : Nat)
  | sendOk
  | sendFailed
deriving DecidableEq

/-- `MeshtasticClient.send_text` (lines 205-231): when connected, forward the
text to `interface.sendText` and report `True` unless the link raised; when
not connected, report `False` without touching the link.  `linkSend` models
the Device Link primitive (`true` = no exception); the second component is
the list of texts actually handed to the link. -/
def send_text (connected : Bool) (linkSend : String → Bool) (text : String) :
    Bool × List String :=
  if connected then (linkSend text, [text]) else (false, [])

/-- The Discord `send` command (lines 135-170 of `discord_client.py`) wired
through `_send_mesh_message` (main.py lines 116-120): reject messages longer
than 240 characters before invoking the callback, otherwise report the
callback's success or failure.  `connected` folds together
`self.meshtastic_client and self.meshtastic_client.is_connected()`. -/
def send_command (connected : Bool) (linkSend : String → Bool) (message : String) :
    SendOutcome × List String :=
  if message.length > 240 then (.tooLong message.length, [])
  else
    let r := send_text connected linkSend message
    ((if r.1 then .sendOk else .sendFailed), r.2)

/-! ## Connection supervisor loop (`main.py` `run_meshtastic`, lines 130-176)

The loop is embedded as a trace of observable events per iteration; which
branch an iteration takes is decided by the environment (device behaviour
and the lifecycle flag), so an iteration outcome is an input. -/

/-- Observable events of one `run_meshtastic` iteration. -/
inductive SupEvent where
  | connectAttemptEv
  | errorNotice
  | disconnectCall
  | backoffSleep (seconds : Nat)
deriving DecidableEq

/-- How one iteration of the `while self.running` loop ends. -/
inductive IterOutcome where
  /-- `connect()` returned `False`; the lifecycle flag stayed set. -/
  | connectFailed
  /-- `connect()` returned `False` and the flag cleared during the iteration,
  so the trailing `if self.running: time.sleep(...)` is skipped. -/
  | connectFailedThenStop
  /-- Connected, then `is_connected()` went false with the flag still set. -/
  | connectedThenLost
  /-- Connected, then the flag cleared: `break` out of the loop (the
  `finally` block still runs `disconnect`). -/
  | connectedThenStop
deriving DecidableEq

/-- Events of a single iteration.  On a failure the code logs a warning,
schedules the error notice (lines 162-165), runs the `finally` disconnect
(lines 170-172) and, if the flag is still set, sleeps the configured backoff
(lines 175-176) before the next attempt. -/
def iterationEvents (delay : Nat) : IterOutcome → List SupEvent
  | .connectFailed => [.connectAttemptEv, .errorNotice, .disconnectCall, .backoffSleep delay]
  | .connectFailedThenStop => [.connectAttemptEv, .errorNotice, .disconnectCall]
  | .connectedThenLost => [.connectAttemptEv, .errorNotice, .disconnectCall, .backoffSleep delay]
  | .connectedThenStop => [.connectAttemptEv, .disconnectCall]

/-- Whether the loop terminates after this iteration. -/
def loopStops : IterOutcome → Bool
  | .connectFailedThenStop => true
  | .connectedThenStop => true
  | _ => false

/-- Event trace of `run_meshtastic` for a given sequence of environment
outcomes. -/
def runMeshtasticTrace (delay : Nat) : List IterOutcome → List SupEvent
  | [] => []
  | o :: os =>
    iterationEvents delay o ++ (if loopStops o then [] else runMeshtasticTrace delay os)

/-- Total seconds spent in backoff sleeps along a trace. -/
def totalSleep : List SupEvent → Nat
  | [] => 0
  | .backoffSleep s :: es => s + totalSleep es
  | .connectAttemptEv :: es => totalSleep es
  | .errorNotice :: es => totalSleep es
  | .disconnectCall :: es => totalSleep es

/-! ## Pub-sub subscription state across reconnects

`MeshtasticClient.connect` (line 43) runs
`pub.subscribe(self._on_receive, "meshtastic.receive")`;
`MeshtasticClient.disconnect` (lines 185-195) runs `interface.close()` and
clears `connected`, but contains no `pub.unsubscribe`.  The state below
records exactly what the code does to the topic's listener registry. -/

/-- Listener registry of the `"meshtastic.receive"` topic plus the
supervisor's current client.  Client handles are numbered in creation
order. -/
structure SupervisorState where
  subscribedListeners : List Nat
  nextClientId : Nat
  activeInterface : Option Nat
deriving DecidableEq

/-- State before the first connect attempt. -/
def initialSupervisorState : SupervisorState :=
  { subscribedListeners := [], nextClientId := 0, activeInterface := none }

/-- One connect attempt: `run_meshtastic` constructs a brand-new
`MeshtasticClient` (main.py lines 135-138) whose `connect` subscribes its
`_on_receive` to the packet topic and opens a fresh serial interface. -/
def connect_step (st : SupervisorState) : SupervisorState :=
  { subscribedListeners := st.subscribedListeners ++ [st.nextClientId]
    nextClientId := st.nextClientId + 1
    activeInterface := some st.nextClientId }

/-- `disconnect`: closes the interface and clears the connected flag; the
listener registry is untouched because the code never unsubscribes. -/
def disconnect_step (st : SupervisorState) : SupervisorState :=
  { st with activeInterface := none }

/-- How many times one received packet fires `_on_receive` (hence
classification and the message callback): once per registered listener. -/
def callbackInvocationsPerPacket (st : SupervisorState) : Nat :=
  st.subscribedListeners.length

/-! ## Node listing sort (`discord_client.py` `nodes` command, lines 193-198)

`sorted(nodes_list, key=lambda x: x.get('snr', -999), reverse=True)` is a
stable sort by descending key; `List.mergeSort` with the non-strict
descending comparison has exactly those semantics (stable sorts by a total
preorder have a unique output). -/

/-- A node record as listed by the `nodes` command; only `snr` drives the
sort, `nodeId` stands for the rest of the record. -/
structure ListedNode where
  snr : Option Int
  nodeId : String
deriving DecidableEq

/-- The sort key `x.get('snr', -999)`. -/
def snrKey (n : ListedNode) : Int := n.snr.getD (-999)

/-- The comparison `sorted(..., reverse=True)` orders by. -/
def snrDescLE (a b : ListedNode) : Bool := decide (snrKey b ≤ snrKey a)

/-- `sorted(nodes_list, key=lambda x: x.get('snr', -999), reverse=True)`. -/
def sorted_nodes (nodes_list : List ListedNode) : List ListedNode :=
  nodes_list.mergeSort snrDescLE

/-! ## Cross-runtime bridge (`message_handler.py`) -/

/-- `MessageHandler` state: the runtime handle `self.loop` (set by
`set_event_loop`) and, as observable effect, the list of coroutines handed
to `asyncio.run_coroutine_threadsafe`, in submission order.  Loop handles
and tasks are represented by numbers. -/
structure HandlerState where
  loop : Option Nat
  scheduled : List Nat
deriving DecidableEq

/-- `set_event_loop` (lines 24-30). -/
def set_event_loop (st : HandlerState) (l : Nat) : HandlerState :=
  { st with loop := some l }

/-- `_schedule_discord_task` (lines 67-81): without a loop handle, log the
error and return with nothing scheduled and no state change; otherwise hand
the task to the runtime. -/
def schedule_discord_task (st : HandlerState) (t : Nat) : HandlerState :=
  match st.loop with
  | none => st
  | some _ => { st with scheduled := st.scheduled ++ [t] }

/-! ## Claim C9's reading of name resolution -/

/-- Modelled from the spec: display-name resolution exactly as claim C9 and
spec section 4.1 word it — "look up the sender in the NodeRecord cache by
numeric id", then "the cache entry's long name if present, else its short
name if present, else the raw sender id string" ("present" read literally
as the key existing).  Defined only to be compared with the source's
`resolveFromName`. -/
def resolveNameByClaim (nodes : NodeCache) (from_id : String) (from_num : Nat) : String :=
  match nodes.lookup (NodeKey.num from_num) with
  | none => from_id
  | some node =>
    match node.user with
    | none => from_id
    | some u =>
      match u.longName with
      | some s => s
      | none =>
        match u.shortName with
        | some s => s
        | none => from_id

/-! ## Concrete inputs used by counterexamples and witnesses -/

/-- Decoded payload of a telemetry packet whose `deviceMetrics` dictionary
is non-empty but contains none of the five metric keys. -/
def extrasOnlyDecoded : DecodedPayload where
  portnum := some "TELEMETRY_APP"
  text := none
  telemetry := some { deviceMetrics := some [("rssi", 7)] }

/-- A telemetry packet whose `deviceMetrics` dictionary is non-empty but
contains none of the five metric keys. -/
def telemetryExtrasPacket : RawPacket where
  decoded := some extrasOnlyDecoded
  fromId := none
  fromNum := none
  toId := none
  rxTime := some 1000

/-- Decoded payload carrying exactly one metric, `batteryLevel`. -/
def batteryOnlyDecoded : DecodedPayload where
  portnum := some "TELEMETRY_APP"
  text := none
  telemetry := some { deviceMetrics := some [("batteryLevel", 80)] }

/-- A telemetry packet carrying exactly one metric, `batteryLevel`. -/
def telemetryBatteryPacket : RawPacket where
  decoded := some batteryOnlyDecoded
  fromId := none
  fromNum := none
  toId := none
  rxTime := some 5

/-- A telemetry packet whose `deviceMetrics` exists but is empty. -/
def telemetryEmptyMetricsPacket : RawPacket where
  decoded := some { portnum := some "TELEMETRY_APP", text := none,
                    telemetry := some { deviceMetrics := some [] } }
  fromId := none
  fromNum := none
  toId := none
  rxTime := some 9

/-! ## Claim C1 -/

/-- Claim C1, counterexample: this packet's `deviceMetrics` sub-object
exists and none of the five metric fields is present, yet classification
produces a Telemetry message (with every metric field empty), because the
code's guard `if device_metrics:` only tests dictionary non-emptiness.  The
claim says such a packet yields no message. -/
theorem c1_counterexample :
    process_packet none 0 telemetryExtrasPacket
      = some (.telemetry "Unknown" 0 none none none none none 1000 telemetryExtrasPacket)
    ∧ [(("rssi" : String), (7 : Int))].lookup "batteryLevel" = none
    ∧ [(("rssi" : String), (7 : Int))].lookup "voltage" = none
    ∧ [(("rssi" : String), (7 : Int))].lookup "channelUtilization" = none
    ∧ [(("rssi" : String), (7 : Int))].lookup "airUtilTx" = none
    ∧ [(("rssi" : String), (7 : Int))].lookup "uptimeSeconds" = none := by
  refine ⟨rfl, ?_, ?_, ?_, ?_, ?_⟩ <;> rfl

/-- Claim C1 (amended): for a `TELEMETRY_APP` packet, classification yields
a Telemetry message iff the `deviceMetrics` sub-object is present and
non-empty as a dictionary (absent or empty yields no message), and a
produced message carries exactly the metric fields present in the packet,
each copied verbatim. -/
theorem c1_telemetry_classification (iface : Option NodeCache) (now : Int)
    (p : RawPacket) (d : DecodedPayload) (hdec : p.decoded = some d)
    (hport : d.portnum = some "TELEMETRY_APP") :
    ((process_packet iface now p).isSome ↔
      ∃ dm, d.telemetry.bind (·.deviceMetrics) = some dm ∧ dm ≠ [])
    ∧ (∀ dm, d.telemetry.bind (·.deviceMetrics) = some dm → dm ≠ [] →
        process_packet iface now p =
          some (.telemetry (resolveFromName iface (p.fromId.getD "Unknown") (p.fromNum.getD 0))
            (p.fromNum.getD 0) (dm.lookup "batteryLevel") (dm.lookup "voltage")
            (dm.lookup "channelUtilization") (dm.lookup "airUtilTx") (dm.lookup "uptimeSeconds")
            (p.rxTime.getD now) p)) := by
  unfold process_packet
  simp only [hdec, hport]
  cases hdm : d.telemetry.bind (·.deviceMetrics) with
  | none => simp [hdm]
  | some dm =>
    cases dm with
    | nil => simp [hdm]
    | cons x xs => simp [hdm]

/-- Claim C1, witness for the amended theorem: a packet carrying only a
battery level classifies to a Telemetry message with exactly that field. -/
theorem c1_witness :
    process_packet none 0 telemetryBatteryPacket
      = some (.telemetry "Unknown" 0 (some 80) none none none none 5 telemetryBatteryPacket) := by
  have h := (c1_telemetry_classification none 0 telemetryBatteryPacket
    batteryOnlyDecoded rfl rfl).2 [("batteryLevel", 80)] rfl (by simp)
  exact h

/-! ## Claim C2 -/

/-- Claim C2: a command message longer than 240 characters is rejected with
a "too long" result and the Device Link send primitive is never invoked (the
call log stays empty); a message of length at most 240 issued while
connected is handed to the link exactly once and the command reports the
link's success or failure. -/
theorem c2_send_length_limit (connected : Bool) (linkSend : String → Bool) (message : String) :
    (message.length > 240 →
      send_command connected linkSend message = (.tooLong message.length, []))
    ∧ (message.length ≤ 240 → connected = true →
      send_command connected linkSend message
        = ((if linkSend message then .sendOk else .sendFailed), [message])) := by
  constructor
  · intro h
    simp [send_command, h]
  · intro h hc
    simp [send_command, send_text, Nat.not_lt.mpr h, hc]

set_option maxRecDepth 4000 in
/-- Claim C2, witness: a 241-character message is rejected without reaching
the link, and a short message goes out through the link and succeeds. -/
theorem c2_witness :
    send_command true (fun _ => true) (String.mk (List.replicate 241 'x'))
      = (.tooLong 241, [])
    ∧ send_command true (fun _ => true) "hi" = (.sendOk, ["hi"]) := by
  constructor
  · exact (c2_send_length_limit true (fun _ => true) _).1
      (by simp [String.length, List.length_replicate])
  · have h := (c2_send_length_limit true (fun _ => true) "hi").2 (by decide) rfl
    simpa using h

/-! ## Claim C3 -/

/-- Claim C3: each attempt does construct a brand-new client handle, but
`disconnect` never removes the previous attempt's pub-sub listener, so after
one reconnect the `"meshtastic.receive"` topic carries both listeners and a
single received packet fires the classification callback twice. -/
theorem c3_stale_subscription_double_delivery :
    (connect_step (disconnect_step (connect_step initialSupervisorState))).subscribedListeners
      = [0, 1]
    ∧ callbackInvocationsPerPacket
        (connect_step (disconnect_step (connect_step initialSupervisorState))) = 2
    ∧ (connect_step initialSupervisorState).activeInterface
        ≠ (connect_step (disconnect_step (connect_step initialSupervisorState))).activeInterface := by
  refine ⟨rfl, rfl, by decide⟩

/-! ## Claim C4 -/

/-- A text packet that carries no `rxTime`, so line 128 falls back to the
current clock reading. -/
def textNoRxTimePacket : RawPacket where
  decoded := some { portnum := some "TEXT_MESSAGE_APP", text := some "hello", telemetry := none }
  fromId := some "!a1b2"
  fromNum := some 0
  toId := none
  rxTime := none

/-- Claim C4, counterexample: for a packet without `rxTime`, `_process_packet`
stamps the message with `int(time.time())`, so two runs on the same packet
and the same node cache at different clock instants produce different
results — classification is not a function of packet and cache alone. -/
theorem c4_counterexample :
    process_packet none 100 textNoRxTimePacket ≠ process_packet none 200 textNoRxTimePacket := by
  decide

/-- Claim C4 (amended): the classifier is a pure function of the raw packet,
the node-cache snapshot and the clock reading taken for the missing-`rxTime`
fallback; whenever the packet carries its own `rxTime`, the clock is unused
and two runs at different instants agree exactly. -/
theorem c4_deterministic_given_rxtime (iface : Option NodeCache) (p : RawPacket)
    (t t' : Int) (h : p.rxTime.isSome) :
    process_packet iface t p = process_packet iface t' p := by
  obtain ⟨r, hr⟩ := Option.isSome_iff_exists.mp h
  unfold process_packet
  simp only [hr, Option.getD_some]

/-- Claim C4, witness: a packet that carries `rxTime` classifies identically
at two different clock instants. -/
theorem c4_witness :
    process_packet none 100 telemetryBatteryPacket
      = process_packet none 200 telemetryBatteryPacket :=
  c4_deterministic_given_rxtime none telemetryBatteryPacket 100 200 (by decide)

/-! ## Claim C5 -/

/-- A position-update packet. -/
def positionPacket : RawPacket where
  decoded := some { portnum := some "POSITION_APP", text := none, telemetry := none }
  fromId := some "!pos1"
  fromNum := some 7
  toId := none
  rxTime := some 3

/-- Claim C5: a packet with no decoded payload yields no message, and a
packet whose kind discriminator is neither `TEXT_MESSAGE_APP` nor
`TELEMETRY_APP` — node-info updates, position updates, unrecognized or
missing kinds — yields no message. -/
theorem c5_unhandled_kinds_yield_nothing (iface : Option NodeCache) (now : Int) (p : RawPacket)
    (h : ∀ d, p.decoded = some d →
      d.portnum ≠ some "TEXT_MESSAGE_APP" ∧ d.portnum ≠ some "TELEMETRY_APP") :
    process_packet iface now p = none := by
  cases hd : p.decoded with
  | none => simp [process_packet, hd]
  | some d =>
    obtain ⟨h1, h2⟩ := h d hd
    unfold process_packet
    simp only [hd]
    rw [if_neg, if_neg]
    · simpa using h2
    · simpa using h1

/-- Claim C5, witness: a position packet classifies to nothing. -/
theorem c5_witness : process_packet none 0 positionPacket = none :=
  c5_unhandled_kinds_yield_nothing none 0 positionPacket
    (by
      intro d hd
      injection hd with h
      subst h
      exact ⟨by decide, by decide⟩)

/-! ## Claim C6 -/

/-- Claim C6: along a run of `n` consecutive failed connect attempts with
the lifecycle flag set throughout, every iteration ends with a sleep of the
full configured backoff before the next attempt (the trace of `n + 1`
failures is one failed iteration — attempt, notice, disconnect, full
backoff sleep — followed by the trace of `n` failures), and the total time
spent sleeping is exactly `n` times the backoff, hence at least `n` times
the backoff. -/
theorem c6_backoff_between_failures (delay n : Nat) :
    runMeshtasticTrace delay (List.replicate (n + 1) .connectFailed)
      = [.connectAttemptEv, .errorNotice, .disconnectCall, .backoffSleep delay]
        ++ runMeshtasticTrace delay (List.replicate n .connectFailed)
    ∧ totalSleep (runMeshtasticTrace delay (List.replicate n .connectFailed)) = n * delay
    ∧ n * delay ≤ totalSleep (runMeshtasticTrace delay (List.replicate n .connectFailed)) := by
  have hstep : ∀ m : Nat,
      runMeshtasticTrace delay (List.replicate (m + 1) .connectFailed)
        = [.connectAttemptEv, .errorNotice, .disconnectCall, .backoffSleep delay]
          ++ runMeshtasticTrace delay (List.replicate m .connectFailed) := by
    intro m
    rw [List.replicate_succ]
    simp [runMeshtasticTrace, iterationEvents, loopStops]
  have hsleep : ∀ m : Nat,
      totalSleep (runMeshtasticTrace delay (List.replicate m .connectFailed)) = m * delay := by
    intro m
    induction m with
    | zero => simp [runMeshtasticTrace, totalSleep]
    | succ k ih =>
      rw [hstep k]
      simp only [List.append_eq, List.cons_append, List.nil_append, totalSleep, ih]
      ring
  exact ⟨hstep n, hsleep n, (hsleep n).ge⟩

/-! ## Claim C8 -/

/-- Claim C8: invoking `_schedule_discord_task` before the runtime handle is
set returns without raising (the embedding is a total function), schedules
nothing and leaves the handler state untouched; after `set_event_loop`
provides the handle, every schedule call — including ones following an
early failed call — appends its task to the runtime queue as normal. -/
theorem c8_schedule_before_loop_is_safe (ts : List Nat) (t t' u : Nat) (l : Nat) :
    schedule_discord_task { loop := none, scheduled := ts } t
      = { loop := none, scheduled := ts }
    ∧ schedule_discord_task
        (set_event_loop (schedule_discord_task { loop := none, scheduled := ts } t) l) t'
      = { loop := some l, scheduled := ts ++ [t'] }
    ∧ schedule_discord_task { loop := some l, scheduled := ts } u
      = { loop := some l, scheduled := ts ++ [u] } := by
  exact ⟨rfl, rfl, rfl⟩

/-! ## Claim C7 -/

/-- A node whose snr is below the `-999` sentinel the code substitutes for a
missing snr. -/
def weakSnrNode : ListedNode := { snr := some (-1000), nodeId := "weak" }

/-- A node with unknown signal quality. -/
def unknownSnrNode : ListedNode := { snr := none, nodeId := "unknown" }

/-- Claim C7, counterexample: the code substitutes the sentinel `-999` for a
missing snr, so a node whose actual snr is `-1000` sorts after an
unknown-quality node — the unknown-quality entry is not placed last. -/
theorem c7_counterexample :
    sorted_nodes [weakSnrNode, unknownSnrNode] = [unknownSnrNode, weakSnrNode]
    ∧ unknownSnrNode.snr = none
    ∧ weakSnrNode.snr = some (-1000) := by
  refine ⟨?_, rfl, rfl⟩
  rw [sorted_nodes, List.mergeSort]
  simp [List.splitInTwo, snrDescLE, snrKey, weakSnrNode, unknownSnrNode, List.merge]

/-- Claim C7 (amended): the listing sort is the input stably sorted by
descending snr with a missing snr replaced by the sentinel `-999`: the
output is a permutation of the input, is sorted by descending effective
key, keeps two equal-key entries (in particular two unknown-quality
entries) in their input order, and places unknown-quality entries last
whenever every known snr in the input exceeds the sentinel `-999` (as
realistic snr values do). -/
theorem c7_sorted_nodes_properties (l : List ListedNode) (a b : ListedNode)
    (hkey : snrKey a = snrKey b) (hsub : [a, b].Sublist l)
    (hknown : ∀ n ∈ l, n.snr.isSome → -999 < snrKey n) :
    (sorted_nodes l).Perm l
    ∧ (sorted_nodes l).Pairwise (fun x y => snrKey y ≤ snrKey x)
    ∧ [a, b].Sublist (sorted_nodes l)
    ∧ (sorted_nodes l).Pairwise (fun x y => x.snr = none → y.snr = none) := by
  have htrans : ∀ x y z : ListedNode, snrDescLE x y → snrDescLE y z → snrDescLE x z := by
    intro x y z hxy hyz
    simp only [snrDescLE, decide_eq_true_eq] at hxy hyz ⊢
    omega
  have htotal : ∀ x y : ListedNode, snrDescLE x y || snrDescLE y x := by
    intro x y
    simp only [snrDescLE, Bool.or_eq_true, decide_eq_true_eq]
    exact Int.le_total (snrKey y) (snrKey x)
  have hsorted := List.sorted_mergeSort htrans htotal l
  refine ⟨List.mergeSort_perm l snrDescLE, ?_, ?_, ?_⟩
  · exact hsorted.imp (fun h => by simpa [snrDescLE, decide_eq_true_eq] using h)
  · refine List.sublist_mergeSort htrans htotal ?_ hsub
    simp [List.pairwise_cons, snrDescLE, hkey]
  · refine hsorted.imp_of_mem ?_
    intro x y hx hy hxy hxnone
    have hy' : y ∈ l := List.mem_mergeSort.mp hy
    cases hysnr : y.snr with
    | none => rfl
    | some s =>
      have h1 : -999 < snrKey y := hknown y hy' (by simp [hysnr])
      have h2 : snrKey y ≤ snrKey x := by
        simpa [snrDescLE, decide_eq_true_eq] using hxy
      have h3 : snrKey x = -999 := by simp [snrKey, hxnone]
      omega

/-- An equal-quality pair plus an unknown-quality node, for the witness. -/
def nodeA : ListedNode := { snr := some 5, nodeId := "a" }

/-- Second node of the equal-quality pair. -/
def nodeB : ListedNode := { snr := some 5, nodeId := "b" }

/-- An unknown-quality node for the witness. -/
def nodeU : ListedNode := { snr := none, nodeId := "u" }

/-- Claim C7, witness: on a list with an equal-quality pair and an
unknown-quality node, the sort permutes, orders by descending key, keeps
the pair's input order, and puts the unknown entry last. -/
theorem c7_witness :
    (sorted_nodes [nodeU, nodeA, nodeB]).Perm [nodeU, nodeA, nodeB]
    ∧ (sorted_nodes [nodeU, nodeA, nodeB]).Pairwise (fun x y => snrKey y ≤ snrKey x)
    ∧ [nodeA, nodeB].Sublist (sorted_nodes [nodeU, nodeA, nodeB])
    ∧ (sorted_nodes [nodeU, nodeA, nodeB]).Pairwise
        (fun x y => x.snr = none → y.snr = none) :=
  c7_sorted_nodes_properties [nodeU, nodeA, nodeB] nodeA nodeB rfl
    (List.Sublist.cons nodeU (List.Sublist.refl [nodeA, nodeB]))
    (by decide)

/-! ## Claim C9 -/

/-- Cache entry stored under the display-id string key. -/
def stringKeyedNode : CacheNode :=
  { user := some { longName := some "StringEntry", shortName := none }, extraKeys := 0 }

/-- Cache entry stored under the numeric-id key. -/
def numericKeyedNode : CacheNode :=
  { user := some { longName := some "NumericEntry", shortName := none }, extraKeys := 0 }

/-- A node cache holding different records under the sender's display-id
string and the sender's numeric id. -/
def dualKeyCache : NodeCache :=
  [(NodeKey.str "!a1b2", stringKeyedNode), (NodeKey.num 42, numericKeyedNode)]

/-- Claim C9, counterexample: the code looks the sender up by the display-id
string first (line 116), so with distinct records under the two keys the
resolved name is the string-keyed entry's long name, not the long name of
the record found by numeric id as the claim describes. -/
theorem c9_counterexample :
    resolveFromName (some dualKeyCache) "!a1b2" 42 = "StringEntry"
    ∧ resolveNameByClaim dualKeyCache "!a1b2" 42 = "NumericEntry"
    ∧ resolveFromName (some dualKeyCache) "!a1b2" 42
        ≠ resolveNameByClaim dualKeyCache "!a1b2" 42 := by
  refine ⟨rfl, rfl, by decide⟩

/-- Claim C9 (amended): the sender display name is resolved by looking the
sender up in the node cache first by the display-id string and then by the
numeric id (skipping the lookup entirely when the interface is absent or
the numeric id is 0); the name is the first non-empty one of the found
entry's long name and short name, else the raw sender id; when neither key
is in the cache the raw sender id is used; resolution is total, hence
non-fatal. -/
theorem c9_name_resolution (nodes : NodeCache) (from_id : String) (from_num : Nat)
    (node fallbackNode : CacheNode) (u : MeshUser) :
    (resolveFromName none from_id from_num = from_id)
    ∧ (resolveFromName (some nodes) from_id 0 = from_id)
    ∧ (from_num ≠ 0 → nodes.lookup (NodeKey.str from_id) = none →
        nodes.lookup (NodeKey.num from_num) = none →
        resolveFromName (some nodes) from_id from_num = from_id)
    ∧ (from_num ≠ 0 → nodes.lookup (NodeKey.str from_id) = some node →
        nodeTruthy node = true → node.user = some u →
        resolveFromName (some nodes) from_id from_num =
          (if pyStrTruthy u.longName then u.longName.getD ""
           else if pyStrTruthy u.shortName then u.shortName.getD ""
           else from_id))
    ∧ (from_num ≠ 0 → nodes.lookup (NodeKey.str from_id) = none →
        nodes.lookup (NodeKey.num from_num) = some node →
        nodeTruthy node = true → node.user = some u →
        resolveFromName (some nodes) from_id from_num =
          (if pyStrTruthy u.longName then u.longName.getD ""
           else if pyStrTruthy u.shortName then u.shortName.getD ""
           else from_id))
    ∧ (from_num ≠ 0 → nodes.lookup (NodeKey.str from_id) = some fallbackNode →
        nodeTruthy fallbackNode = false →
        nodes.lookup (NodeKey.num from_num) = some node →
        nodeTruthy node = true → node.user = some u →
        resolveFromName (some nodes) from_id from_num =
          (if pyStrTruthy u.longName then u.longName.getD ""
           else if pyStrTruthy u.shortName then u.shortName.getD ""
           else from_id)) := by
  refine ⟨rfl, by simp [resolveFromName], ?_, ?_, ?_, ?_⟩
  · intro h0 h1 h2
    simp [resolveFromName, pyOrNode, truthyNode, h0, h1, h2]
  · intro h0 h1 ht hu
    simp [resolveFromName, pyOrNode, truthyNode, h0, h1, ht, hu]
  · intro h0 h1 h2 ht hu
    simp [resolveFromName, pyOrNode, truthyNode, h0, h1, h2, ht, hu]
  · intro h0 h1 hft h2 ht hu
    simp [resolveFromName, pyOrNode, truthyNode, h0, h1, hft, h2, ht, hu]

/-- Cache entry whose long name is present but empty. -/
def emptyLongNameNode : CacheNode :=
  { user := some { longName := some "", shortName := some "SH" }, extraKeys := 0 }

/-- Cache for the C9 witness. -/
def emptyLongNameCache : NodeCache := [(NodeKey.str "!w", emptyLongNameNode)]

/-- Cache holding only a numeric-id entry, for the numeric-fallback part of
the C9 witness. -/
def numericOnlyCache : NodeCache := [(NodeKey.num 7, numericKeyedNode)]

/-- Claim C9, witness: a present-but-empty long name falls through to the
short name, and a sender whose display-id string is not in the cache is
still resolved through the numeric-id entry, per the amended order. -/
theorem c9_witness :
    resolveFromName (some emptyLongNameCache) "!w" 9 = "SH"
    ∧ resolveFromName (some numericOnlyCache) "!absent" 7 = "NumericEntry" := by
  constructor
  · have h := (c9_name_resolution emptyLongNameCache "!w" 9 emptyLongNameNode
      emptyLongNameNode { longName := some "", shortName := some "SH" }).2.2.2.1
      (by decide) rfl (by decide) rfl
    simpa [pyStrTruthy] using h
  · have h := (c9_name_resolution numericOnlyCache "!absent" 7 numericKeyedNode
      numericKeyedNode { longName := some "NumericEntry", shortName := none }).2.2.2.2.1
      (by decide) rfl rfl (by decide) rfl
    simpa [pyStrTruthy] using h

/-! ## Claim C10 -/

/-- A text-message packet whose decoded payload has no `text` field. -/
def textNoTextPacket : RawPacket where
  decoded := some { portnum := some "TEXT_MESSAGE_APP", text := none, telemetry := none }
  fromId := some "!c3d4"
  fromNum := some 0
  toId := some "!dest"
  rxTime := some 42

/-- Claim C10: a `TEXT_MESSAGE_APP` packet always classifies to a
DirectMessage, and when the decoded payload has no `text` field the
message's text is the empty string (`decoded.get('text', '')`). -/
theorem c10_text_kind_always_message (iface : Option NodeCache) (now : Int)
    (p : RawPacket) (d : DecodedPayload) (hdec : p.decoded = some d)
    (hport : d.portnum = some "TEXT_MESSAGE_APP") :
    (process_packet iface now p).isSome
    ∧ (d.text = none →
        process_packet iface now p =
          some (.directMessage
            (resolveFromName iface (p.fromId.getD "Unknown") (p.fromNum.getD 0))
            (p.fromNum.getD 0) (p.toId.getD "Unknown") "" (p.rxTime.getD now) p)) := by
  unfold process_packet
  simp only [hdec, hport]
  constructor
  · simp
  · intro ht
    simp [ht]

/-- Claim C10, witness: a concrete text packet with no `text` field yields a
DirectMessage with empty text. -/
theorem c10_witness :
    process_packet none 0 textNoTextPacket
      = some (.directMessage "!c3d4" 0 "!dest" "" 42 textNoTextPacket) := by
  have h := (c10_text_kind_always_message none 0 textNoTextPacket
    { portnum := some "TEXT_MESSAGE_APP", text := none, telemetry := none } rfl rfl).2 rfl
  exact h

end MeshBridge
